import Mathlib

/-!
Verification of the streaming speech-synthesis client (TTS module):
binary frame codec (buildFrame / parseFrame), the WebSocket message
handler of TTSManager.synthesize, the audio-cache retention sweep
(TTSManager.cleanupAudio) and the cache filename generation.

Buffers are modelled as lists of natural numbers (one entry per byte).
JSON serialization and parsing are platform functions (JSON.stringify /
JSON.parse), not code of this repository; they are taken as parameters
of the codec: a type J of JSON documents together with
stringify : J -> List Nat and parse : List Nat -> Option J.
-/

namespace TTS

/-! ## Byte-level helpers (Node Buffer operations) -/

/-- Big-endian base-256 value of a byte list (used by readUInt32BE). -/
def bytesToNat (l : List Nat) : Nat :=
  l.foldl (fun acc b => acc * 256 + b) 0

/-- Buffer.writeUInt32BE: the four big-endian bytes of a value below 2^32. -/
def writeUInt32BE (n : Nat) : List Nat :=
  [n / 2 ^ 24 % 256, n / 2 ^ 16 % 256, n / 2 ^ 8 % 256, n % 256]

/-- Buffer.writeInt32BE: two-complement big-endian encoding of a signed value. -/
def writeInt32BE (i : Int) : List Nat :=
  writeUInt32BE (i % (2 ^ 32 : Int)).toNat

/-- Buffer.readUInt32BE at an offset: value of the four bytes starting there. -/
def readUInt32BE (d : List Nat) (off : Nat) : Nat :=
  bytesToNat ((d.drop off).take 4)

/-- Buffer.readInt32BE at an offset: signed reinterpretation of the unsigned read. -/
def readInt32BE (d : List Nat) (off : Nat) : Int :=
  let u := readUInt32BE d off
  if u < 2 ^ 31 then (u : Int) else (u : Int) - 2 ^ 32

/-- Buffer.slice(off, off+len): clamping slice, as in Node. -/
def slice (d : List Nat) (off len : Nat) : List Nat :=
  (d.drop off).take len

/-! ## Frame codec data model -/

/-- The six header fields parseFrame extracts from the 4-byte header.
headerSize is in bytes (the low nibble of byte 0 times 4). -/
structure Header where
  protocolVersion : Nat
  headerSize : Nat
  messageType : Nat
  messageTypeFlags : Nat
  serializationMethod : Nat
  compressionMethod : Nat
deriving DecidableEq, Repr

/-- A decoded payload: a parsed JSON document, the UTF-8 text fallback used
when JSON.parse throws, or a raw binary (audio) buffer. -/
inductive Payload (J : Type) where
  | json (j : J)
  | text (bytes : List Nat)
  | raw (bytes : List Nat)
deriving DecidableEq

/-- Result of parseFrame: the early {error: ...} object for a too-short
buffer, a server error frame (isError: true), or an ordinary frame. -/
inductive ParseResult (J : Type) where
  | decodeError (msg : String)
  | errorFrame (header : Header) (eventNumber : Option Int) (errorCode : Int)
      (payload : Option (Payload J))
  | frame (header : Header) (eventNumber : Option Int) (sessionId : Option (List Nat))
      (sequenceNumber : Option Int) (payload : Option (Payload J))
deriving DecidableEq

/-- True exactly on the decode-error result (the {error: ...} object). -/
def ParseResult.isDecodeErr {J : Type} : ParseResult J → Bool
  | .decodeError _ => true
  | _ => false

/-! ## buildFrame -/

/-- Payload argument of buildFrame: a structured value (JSON-stringified
on encode) or a Buffer written verbatim. -/
inductive BuildPayload (J : Type) where
  | obj (j : J)
  | buf (bytes : List Nat)
deriving DecidableEq

/-- buildFrame: 4-byte header, then the event number when flag bit 2 is
requested, then the length-prefixed session id when present and nonempty
(JS truthiness: the empty string is skipped), then the length-prefixed
payload when present. -/
def buildFrame {J : Type} (jsonStringify : J → List Nat)
    (messageType messageTypeFlags serializationMethod compressionMethod : Nat)
    (eventNumber : Int) (sessionId : Option (List Nat))
    (payload : Option (BuildPayload J)) : List Nat :=
  let header : List Nat :=
    [0x11,
     ((messageType <<< 4) ||| messageTypeFlags) % 256,
     ((serializationMethod <<< 4) ||| compressionMethod) % 256,
     0x00]
  let eventPart : List Nat :=
    if messageTypeFlags &&& 0x04 ≠ 0 then writeInt32BE eventNumber else []
  let sessionPart : List Nat :=
    match sessionId with
    | some s => if s = [] then [] else writeUInt32BE s.length ++ s
    | none => []
  let payloadPart : List Nat :=
    match payload with
    | some p =>
        let bytes := match p with
          | .obj j => jsonStringify j
          | .buf b => b
        writeUInt32BE bytes.length ++ bytes
    | none => []
  header ++ eventPart ++ sessionPart ++ payloadPart

/-! ## parseFrame -/

/-- Header extraction from the first four bytes. -/
def parseHeader (data : List Nat) : Header :=
  { protocolVersion := (data.getD 0 0 >>> 4) &&& 0x0F
    headerSize := (data.getD 0 0 &&& 0x0F) * 4
    messageType := (data.getD 1 0 >>> 4) &&& 0x0F
    messageTypeFlags := data.getD 1 0 &&& 0x0F
    serializationMethod := (data.getD 2 0 >>> 4) &&& 0x0F
    compressionMethod := data.getD 2 0 &&& 0x0F }

/-- JSON.parse with the catch-clause fallback to the raw text. -/
def jsonOrText {J : Type} (jsonParse : List Nat → Option J) (bytes : List Nat) :
    Payload J :=
  match jsonParse bytes with
  | some j => .json j
  | none => .text bytes

/-- Event-number section: read 4 bytes when flag bit 2 is set and they fit;
returns the value (if any) and the offset after the section. -/
def readEventSection (data : List Nat) (flags off : Nat) : Option Int × Nat :=
  if flags &&& 0x04 ≠ 0 ∧ off + 4 ≤ data.length then
    (some (readInt32BE data off), off + 4)
  else (none, off)

/-- Sequence-number section: read 4 bytes when flag bit 0 is set and they fit. -/
def readSeqSection (data : List Nat) (flags off : Nat) : Option Int × Nat :=
  if flags &&& 0x01 ≠ 0 ∧ off + 4 ≤ data.length then
    (some (readInt32BE data off), off + 4)
  else (none, off)

/-- Session-id section: only for a present event number that is at least 100;
the declared length is read first (advancing the offset), and the id bytes
are taken only when the length is in (0, 100) and fits the buffer. -/
def readSessionIdSection (data : List Nat) : Option Int → Nat →
    Option (List Nat) × Nat
  | some e, off =>
      if e ≥ 100 then
        if off + 4 ≤ data.length then
          let sessionIdLen := readUInt32BE data off
          if 0 < sessionIdLen ∧ sessionIdLen < 100 ∧
              off + 4 + sessionIdLen ≤ data.length then
            (some (slice data (off + 4) sessionIdLen), off + 4 + sessionIdLen)
          else (none, off + 4)
        else (none, off)
      else (none, off)
  | none, off => (none, off)

/-- Payload section: length-prefixed bytes, parsed as JSON (with text
fallback) when the serialization method is 1, kept raw otherwise; absent
when the length prefix does not fit, is zero, or overruns the buffer. -/
def readPayloadSection {J : Type} (jsonParse : List Nat → Option J)
    (data : List Nat) (ser off : Nat) : Option (Payload J) :=
  if off + 4 ≤ data.length then
    let payloadLen := readUInt32BE data off
    if 0 < payloadLen ∧ off + 4 + payloadLen ≤ data.length then
      let buf := slice data (off + 4) payloadLen
      if ser = 0x01 then some (jsonOrText jsonParse buf) else some (.raw buf)
    else none
  else none

/-- Error-frame payload: length-prefixed bytes always put through JSON.parse
with text fallback; absent when a length does not fit. -/
def readErrPayload {J : Type} (jsonParse : List Nat → Option J)
    (data : List Nat) (off : Nat) : Option (Payload J) :=
  if off + 4 ≤ data.length then
    let payloadLen := readUInt32BE data off
    if off + 4 + payloadLen ≤ data.length then
      some (jsonOrText jsonParse (slice data (off + 4) payloadLen))
    else none
  else none

/-- parseFrame. Mirrors the source: a buffer below 4 bytes yields the
{error: ...} object; a messageType-15 frame with 4 readable bytes after the
event section is returned as an error frame (when those 4 bytes do not fit
the code falls through to the ordinary path); otherwise sequence number,
session id and payload sections are read in order. -/
def parseFrame {J : Type} (jsonParse : List Nat → Option J) (data : List Nat) :
    ParseResult J :=
  if data.length < 4 then .decodeError "Frame too short"
  else
    let header := parseHeader data
    let es := readEventSection data header.messageTypeFlags header.headerSize
    let eventNumber := es.1
    let o1 := es.2
    if header.messageType = 0x0F ∧ o1 + 4 ≤ data.length then
      .errorFrame header eventNumber (readInt32BE data o1)
        (readErrPayload jsonParse data (o1 + 4))
    else
      let ss := readSeqSection data header.messageTypeFlags o1
      let sis := readSessionIdSection data eventNumber ss.2
      .frame header eventNumber sis.1 ss.1
        (readPayloadSection jsonParse data header.serializationMethod sis.2)

/-! ## Read / write agreement lemmas -/

theorem bytesToNat_writeUInt32BE (n : Nat) (h : n < 2 ^ 32) :
    bytesToNat (writeUInt32BE n) = n := by
  simp only [bytesToNat, writeUInt32BE, List.foldl]
  omega

theorem readUInt32BE_of_drop (data rest : List Nat) (off n : Nat)
    (hdrop : data.drop off = writeUInt32BE n ++ rest) (hn : n < 2 ^ 32) :
    readUInt32BE data off = n := by
  unfold readUInt32BE
  rw [hdrop]
  have h4 : (writeUInt32BE n).length = 4 := rfl
  rw [show (4 : Nat) = (writeUInt32BE n).length from h4.symm, List.take_left]
  exact bytesToNat_writeUInt32BE n hn

theorem readInt32BE_of_drop (data rest : List Nat) (off : Nat) (e : Int)
    (hdrop : data.drop off = writeInt32BE e ++ rest)
    (h1 : -(2 ^ 31) ≤ e) (h2 : e < 2 ^ 31) :
    readInt32BE data off = e := by
  unfold readInt32BE
  have hb : ((e % (2 ^ 32 : Int)).toNat : Nat) < 2 ^ 32 := by
    have hp : (2 : Int) ^ 32 = 4294967296 := by norm_num
    rw [hp] at *
    omega
  have hu : readUInt32BE data off = (e % (2 ^ 32 : Int)).toNat :=
    readUInt32BE_of_drop data rest off _ hdrop hb
  rw [hu]
  have hp : (2 : Int) ^ 32 = 4294967296 := by norm_num
  rw [hp] at *
  dsimp only
  split <;> omega

/-! ## Instrumented decoder for the safety claim

Node Buffer.readUInt32BE / readInt32BE throw when the 4 bytes do not fit
the buffer. The checked decoder below replaces every multi-byte read by a
bounds-checked read that fails (None) on an out-of-range access, keeping
the guard structure of the source. That it never fails, and agrees with
parseFrame, is the formal content of decode totality. -/

/-- Checked Buffer.readUInt32BE: None models the RangeError throw. -/
def readUInt32BEc (d : List Nat) (off : Nat) : Option Nat :=
  if off + 4 ≤ d.length then some (readUInt32BE d off) else none

/-- Checked Buffer.readInt32BE: None models the RangeError throw. -/
def readInt32BEc (d : List Nat) (off : Nat) : Option Int :=
  if off + 4 ≤ d.length then some (readInt32BE d off) else none

/-- Event section with checked reads. -/
def readEventSectionM (data : List Nat) (flags off : Nat) :
    Option (Option Int × Nat) :=
  if flags &&& 0x04 ≠ 0 ∧ off + 4 ≤ data.length then
    (readInt32BEc data off).map (fun v => (some v, off + 4))
  else some (none, off)

/-- Sequence section with checked reads. -/
def readSeqSectionM (data : List Nat) (flags off : Nat) :
    Option (Option Int × Nat) :=
  if flags &&& 0x01 ≠ 0 ∧ off + 4 ≤ data.length then
    (readInt32BEc data off).map (fun v => (some v, off + 4))
  else some (none, off)

/-- Session-id section with checked reads. -/
def readSessionIdSectionM (data : List Nat) (ev : Option Int) (off : Nat) :
    Option (Option (List Nat) × Nat) :=
  match ev with
  | some e =>
      if e ≥ 100 then
        if off + 4 ≤ data.length then
          (readUInt32BEc data off).map (fun sessionIdLen =>
            if 0 < sessionIdLen ∧ sessionIdLen < 100 ∧
                off + 4 + sessionIdLen ≤ data.length then
              (some (slice data (off + 4) sessionIdLen), off + 4 + sessionIdLen)
            else (none, off + 4))
        else some (none, off)
      else some (none, off)
  | none => some (none, off)

/-- Payload section with checked reads. -/
def readPayloadSectionM {J : Type} (jsonParse : List Nat → Option J)
    (data : List Nat) (ser off : Nat) : Option (Option (Payload J)) :=
  if off + 4 ≤ data.length then
    (readUInt32BEc data off).map (fun payloadLen =>
      if 0 < payloadLen ∧ off + 4 + payloadLen ≤ data.length then
        let buf := slice data (off + 4) payloadLen
        if ser = 0x01 then some (jsonOrText jsonParse buf) else some (.raw buf)
      else none)
  else some none

/-- Error-frame payload with checked reads. -/
def readErrPayloadM {J : Type} (jsonParse : List Nat → Option J)
    (data : List Nat) (off : Nat) : Option (Option (Payload J)) :=
  if off + 4 ≤ data.length then
    (readUInt32BEc data off).map (fun payloadLen =>
      if off + 4 + payloadLen ≤ data.length then
        some (jsonOrText jsonParse (slice data (off + 4) payloadLen))
      else none)
  else some none

/-- parseFrame with every multi-byte read bounds-checked; None is an
out-of-range Buffer access that the plain embedding would have hidden. -/
def parseFrameM {J : Type} (jsonParse : List Nat → Option J) (data : List Nat) :
    Option (ParseResult J) :=
  if data.length < 4 then some (.decodeError "Frame too short")
  else
    let header := parseHeader data
    (readEventSectionM data header.messageTypeFlags header.headerSize).bind
      (fun es =>
        if header.messageType = 0x0F ∧ es.2 + 4 ≤ data.length then
          (readInt32BEc data es.2).bind (fun code =>
            (readErrPayloadM jsonParse data (es.2 + 4)).map (fun pl =>
              .errorFrame header es.1 code pl))
        else
          (readSeqSectionM data header.messageTypeFlags es.2).bind (fun ss =>
            (readSessionIdSectionM data es.1 ss.2).bind (fun sis =>
              (readPayloadSectionM jsonParse data header.serializationMethod
                  sis.2).map (fun pl =>
                .frame header es.1 sis.1 ss.1 pl))))

/-! ## Agreement of the checked decoder with parseFrame -/

theorem readEventSectionM_eq (data : List Nat) (flags off : Nat) :
    readEventSectionM data flags off = some (readEventSection data flags off) := by
  unfold readEventSectionM readEventSection
  split
  · rename_i h
    simp [readInt32BEc, h.2]
  · rfl

theorem readSeqSectionM_eq (data : List Nat) (flags off : Nat) :
    readSeqSectionM data flags off = some (readSeqSection data flags off) := by
  unfold readSeqSectionM readSeqSection
  split
  · rename_i h
    simp [readInt32BEc, h.2]
  · rfl

theorem readSessionIdSectionM_eq (data : List Nat) (ev : Option Int) (off : Nat) :
    readSessionIdSectionM data ev off =
      some (readSessionIdSection data ev off) := by
  unfold readSessionIdSectionM readSessionIdSection
  cases ev with
  | none => rfl
  | some e =>
      by_cases he : e ≥ 100
      · simp only [if_pos he]
        by_cases hf : off + 4 ≤ data.length
        · simp [hf, readUInt32BEc]
        · simp [hf]
      · simp [he]

theorem readPayloadSectionM_eq {J : Type} (jsonParse : List Nat → Option J)
    (data : List Nat) (ser off : Nat) :
    readPayloadSectionM jsonParse data ser off =
      some (readPayloadSection jsonParse data ser off) := by
  unfold readPayloadSectionM readPayloadSection
  by_cases hf : off + 4 ≤ data.length
  · simp [hf, readUInt32BEc]
  · simp [hf]

theorem readErrPayloadM_eq {J : Type} (jsonParse : List Nat → Option J)
    (data : List Nat) (off : Nat) :
    readErrPayloadM jsonParse data off = some (readErrPayload jsonParse data off) := by
  unfold readErrPayloadM readErrPayload
  by_cases hf : off + 4 ≤ data.length
  · simp [hf, readUInt32BEc]
  · simp [hf]

/-- Claim C9: decode is total. The instrumented decoder, in which every
multi-byte read throws (None) when out of bounds, never throws on any
input buffer and agrees with the plain embedding: every read in parseFrame
is guarded against the remaining buffer, the too-short buffer returns the
error object, and a JSON parse failure falls back to the raw text instead
of propagating. -/
theorem parseFrame_total {J : Type} (jsonParse : List Nat → Option J)
    (data : List Nat) :
    parseFrameM jsonParse data = some (parseFrame jsonParse data) := by
  unfold parseFrameM parseFrame
  by_cases hshort : data.length < 4
  · simp [hshort]
  · simp only [if_neg hshort]
    rw [readEventSectionM_eq]
    simp only [Option.some_bind]
    split
    · rename_i h
      rw [show readInt32BEc data
            (readEventSection data (parseHeader data).messageTypeFlags
              (parseHeader data).headerSize).2 =
          some (readInt32BE data
            (readEventSection data (parseHeader data).messageTypeFlags
              (parseHeader data).headerSize).2) from by
        simp [readInt32BEc, h.2]]
      simp only [Option.some_bind]
      rw [readErrPayloadM_eq]
      rfl
    · rw [readSeqSectionM_eq]
      simp only [Option.some_bind]
      rw [readSessionIdSectionM_eq]
      simp only [Option.some_bind]
      rw [readPayloadSectionM_eq]
      rfl

/-! ## Round-trip (claim C1) -/

/-- Shape of a client control frame with a session id: header bytes, event
number, length-prefixed session id, length-prefixed JSON payload. -/
theorem buildFrame_control_some {J : Type} (jsonStringify : J → List Nat)
    (e : Int) (s : List Nat) (hs : s ≠ []) (j : J) :
    buildFrame jsonStringify 1 4 1 0 e (some s) (some (.obj j)) =
      [17, 20, 16, 0] ++
        (writeInt32BE e ++
          ((writeUInt32BE s.length ++ s) ++
            (writeUInt32BE (jsonStringify j).length ++ jsonStringify j))) := by
  simp only [buildFrame]
  rw [if_pos (by decide : (4 : Nat) &&& 0x04 ≠ 0), if_neg hs]
  norm_num
  exact ⟨by decide, by decide⟩

/-- Shape of a client control frame without a session id. -/
theorem buildFrame_control_none {J : Type} (jsonStringify : J → List Nat)
    (e : Int) (j : J) :
    buildFrame jsonStringify 1 4 1 0 e none (some (.obj j)) =
      [17, 20, 16, 0] ++
        (writeInt32BE e ++
          (writeUInt32BE (jsonStringify j).length ++ jsonStringify j)) := by
  simp only [buildFrame]
  rw [if_pos (by decide : (4 : Nat) &&& 0x04 ≠ 0)]
  norm_num
  exact ⟨by decide, by decide⟩

/-- Round-trip for a well-formed client control frame, amended with the
constraint that a present session id has between 1 and 99 bytes: decoding
the bytes produced by encoding recovers the header fields, the event
number, the session id and the JSON payload. The event number must fit a
signed 32-bit integer (Buffer.writeInt32BE throws otherwise) and the JSON
serialization is nonempty and below 2^32 bytes, as real JSON text is. -/
theorem parse_buildFrame_roundtrip {J : Type}
    (jsonStringify : J → List Nat) (jsonParse : List Nat → Option J)
    (e : Int) (sid : Option (List Nat)) (s : List Nat) (j : J)
    (he1 : -(2 ^ 31) ≤ e) (he2 : e < 2 ^ 31)
    (hsid : (100 ≤ e ∧ sid = some s ∧ 0 < s.length ∧ s.length < 100) ∨
            (e < 100 ∧ sid = none))
    (hjson : jsonParse (jsonStringify j) = some j)
    (hp1 : 0 < (jsonStringify j).length)
    (hp2 : (jsonStringify j).length < 2 ^ 32) :
    parseFrame jsonParse (buildFrame jsonStringify 1 4 1 0 e sid (some (.obj j))) =
      .frame ⟨1, 4, 1, 4, 1, 0⟩ (some e) sid none (some (.json j)) := by
  rcases hsid with ⟨he100, rfl, hs0, hs99⟩ | ⟨he100, rfl⟩
  · -- session id present (event at least 100)
    have hs : s ≠ [] := by
      intro h
      rw [h] at hs0
      simp at hs0
    have hdata := buildFrame_control_some jsonStringify e s hs j
    set data := buildFrame jsonStringify 1 4 1 0 e (some s) (some (.obj j))
      with hdataDef
    have hlen : data.length =
        16 + s.length + (jsonStringify j).length := by
      rw [hdata]
      simp [writeInt32BE, writeUInt32BE]
      omega
    have hd4 : data.drop 4 =
        writeInt32BE e ++
          ((writeUInt32BE s.length ++ s) ++
            (writeUInt32BE (jsonStringify j).length ++ jsonStringify j)) := by
      rw [hdata]
      rfl
    have hd8 : data.drop 8 =
        writeUInt32BE s.length ++
          (s ++ (writeUInt32BE (jsonStringify j).length ++ jsonStringify j)) := by
      rw [hdata]
      exact List.append_assoc _ _ _
    have hd12 : data.drop 12 =
        s ++ (writeUInt32BE (jsonStringify j).length ++ jsonStringify j) := by
      rw [hdata]
      rfl
    have hread8 : readUInt32BE data 8 = s.length :=
      readUInt32BE_of_drop data _ 8 s.length hd8 (by omega)
    have hslice12 : slice data (8 + 4) s.length = s := by
      unfold slice
      rw [show (8 + 4 : Nat) = 12 from rfl, hd12]
      exact List.take_left s _
    have hd12s : data.drop (8 + 4 + s.length) =
        writeUInt32BE (jsonStringify j).length ++ jsonStringify j := by
      rw [← List.drop_drop, show data.drop (8 + 4) = data.drop 12 from rfl, hd12]
      exact List.drop_left s _
    have hreadP : readUInt32BE data (8 + 4 + s.length) =
        (jsonStringify j).length :=
      readUInt32BE_of_drop data _ _ _ hd12s hp2
    have hd16s : data.drop (8 + 4 + s.length + 4) = jsonStringify j := by
      rw [← List.drop_drop, hd12s]
      rfl
    have hsliceP : slice data (8 + 4 + s.length + 4) (jsonStringify j).length =
        jsonStringify j := by
      unfold slice
      rw [hd16s]
      exact List.take_length _
    have hph : parseHeader data = ⟨1, 4, 1, 4, 1, 0⟩ := by
      rw [hdata]
      simp [parseHeader]
      decide
    have hes : readEventSection data 4 4 = (some e, 8) := by
      unfold readEventSection
      rw [if_pos ⟨by decide, by omega⟩,
        readInt32BE_of_drop data _ 4 e hd4 he1 he2]
    have hss : readSeqSection data 4 8 = (none, 8) := by
      unfold readSeqSection
      rw [if_neg]
      rintro ⟨h, -⟩
      exact h (by decide)
    have hsis : readSessionIdSection data (some e) 8 =
        (some s, 8 + 4 + s.length) := by
      simp only [readSessionIdSection]
      rw [if_pos (show e ≥ 100 from he100), if_pos (by omega : 8 + 4 ≤ data.length)]
      rw [hread8, if_pos ⟨hs0, hs99, by omega⟩, hslice12]
    have hpay : readPayloadSection jsonParse data 1 (8 + 4 + s.length) =
        some (.json j) := by
      unfold readPayloadSection
      rw [if_pos (by omega : 8 + 4 + s.length + 4 ≤ data.length)]
      dsimp only
      rw [hreadP, if_pos ⟨hp1, by omega⟩, hsliceP, if_pos rfl]
      unfold jsonOrText
      rw [hjson]
    unfold parseFrame
    rw [if_neg (by omega : ¬ data.length < 4), hph]
    dsimp only
    rw [hes]
    dsimp only
    rw [if_neg (by rintro ⟨h, -⟩; exact absurd h (by decide))]
    rw [hss]
    dsimp only
    rw [hsis]
    dsimp only
    rw [hpay]
  · -- no session id (event below 100)
    have hdata := buildFrame_control_none jsonStringify e j
    set data := buildFrame jsonStringify 1 4 1 0 e none (some (.obj j))
      with hdataDef
    have hlen : data.length = 12 + (jsonStringify j).length := by
      rw [hdata]
      simp [writeInt32BE, writeUInt32BE]
      omega
    have hd4 : data.drop 4 =
        writeInt32BE e ++
          (writeUInt32BE (jsonStringify j).length ++ jsonStringify j) := by
      rw [hdata]
      rfl
    have hd8 : data.drop 8 =
        writeUInt32BE (jsonStringify j).length ++ jsonStringify j := by
      rw [hdata]
      rfl
    have hreadP : readUInt32BE data 8 = (jsonStringify j).length :=
      readUInt32BE_of_drop data _ 8 _ hd8 hp2
    have hd12 : data.drop (8 + 4) = jsonStringify j := by
      rw [show (8 + 4 : Nat) = 12 from rfl]
      rw [show data.drop 12 = (data.drop 8).drop 4 from (List.drop_drop 4 8 data).symm]
      rw [hd8]
      rfl
    have hsliceP : slice data (8 + 4) (jsonStringify j).length =
        jsonStringify j := by
      unfold slice
      rw [hd12]
      exact List.take_length _
    have hph : parseHeader data = ⟨1, 4, 1, 4, 1, 0⟩ := by
      rw [hdata]
      simp [parseHeader]
      decide
    have hes : readEventSection data 4 4 = (some e, 8) := by
      unfold readEventSection
      rw [if_pos ⟨by decide, by omega⟩,
        readInt32BE_of_drop data _ 4 e hd4 he1 he2]
    have hss : readSeqSection data 4 8 = (none, 8) := by
      unfold readSeqSection
      rw [if_neg]
      rintro ⟨h, -⟩
      exact h (by decide)
    have hsis : readSessionIdSection data (some e) 8 = (none, 8) := by
      simp only [readSessionIdSection]
      rw [if_neg (by omega : ¬ e ≥ 100)]
    have hpay : readPayloadSection jsonParse data 1 8 = some (.json j) := by
      unfold readPayloadSection
      rw [if_pos (by omega : 8 + 4 ≤ data.length)]
      dsimp only
      rw [hreadP, if_pos ⟨hp1, by omega⟩, hsliceP, if_pos rfl]
      unfold jsonOrText
      rw [hjson]
    unfold parseFrame
    rw [if_neg (by omega : ¬ data.length < 4), hph]
    dsimp only
    rw [hes]
    dsimp only
    rw [if_neg (by rintro ⟨h, -⟩; exact absurd h (by decide))]
    rw [hss]
    dsimp only
    rw [hsis]
    dsimp only
    rw [hpay]

/-- A miniature concrete JSON codec used to instantiate the platform
JSON.stringify / JSON.parse parameters in concrete evaluations: a document
is a natural number n, serialized as the three bytes 123, n mod 256, 125. -/
def natStringify (n : Nat) : List Nat :=
  [123, n % 256, 125]

/-- Concrete inverse of natStringify, total on all byte lists. -/
def natParse : List Nat → Option Nat
  | [123, m, 125] => some m
  | _ => none

/-- Claim C1, theorem statement: see parse_buildFrame_roundtrip. This is
its witness: a concrete StartSession-style control frame (event 100,
2-byte session id, JSON payload) round-trips through the codec. -/
theorem parse_buildFrame_roundtrip_witness :
    parseFrame natParse
        (buildFrame natStringify 1 4 1 0 100 (some [104, 105]) (some (.obj 7))) =
      .frame ⟨1, 4, 1, 4, 1, 0⟩ (some 100) (some [104, 105]) none
        (some (.json 7)) :=
  parse_buildFrame_roundtrip natStringify natParse 100 (some [104, 105])
    [104, 105] 7 (by decide) (by decide)
    (Or.inl ⟨by decide, rfl, by decide, by decide⟩) (by decide) (by decide)
    (by decide)

/-- Claim C1, counterexample to the unamended claim: a control frame whose
session id is 100 bytes long satisfies every condition the claim states
(full-client, no error, JSON payload, event flag set, session id present
with event 150 at least 100), yet decoding the encoded bytes does not
recover the frame: the decoder skips a session id whose declared length is
not below 100, so the session id is lost and the payload is misread. -/
theorem parse_buildFrame_roundtrip_counterexample :
    parseFrame natParse
        (buildFrame natStringify 1 4 1 0 150 (some (List.replicate 100 97))
          (some (.obj 7))) ≠
      .frame ⟨1, 4, 1, 4, 1, 0⟩ (some 150) (some (List.replicate 100 97)) none
        (some (.json 7)) := by
  decide

/-- Claim C2 (amended): parseFrame returns the decode-error result exactly
when the buffer is shorter than the 4-byte header. A declared length field
that exceeds the remaining buffer never produces a decode error: the
affected field is silently dropped and a frame is still returned. -/
theorem parseFrame_decodeError_iff {J : Type} (jsonParse : List Nat → Option J)
    (data : List Nat) :
    (parseFrame jsonParse data).isDecodeErr = true ↔ data.length < 4 := by
  unfold parseFrame
  by_cases h : data.length < 4
  · simp [h, ParseResult.isDecodeErr]
  · simp only [if_neg h]
    constructor
    · intro hfalse
      exfalso
      revert hfalse
      split
      · simp [ParseResult.isDecodeErr]
      · simp [ParseResult.isDecodeErr]
    · intro hc
      exact absurd hc h

/-- Claim C2, counterexample to the unamended claim: a 10-byte buffer with
a valid header that declares a 10-byte payload when only 2 bytes remain.
The claim says decode must return DecodeError; the code instead drops the
payload silently (payload none) and returns an ordinary frame. -/
theorem parseFrame_overrun_counterexample :
    parseFrame natParse [17, 16, 16, 0, 0, 0, 0, 10, 1, 2] =
        .frame ⟨1, 4, 1, 0, 1, 0⟩ none none none none ∧
      (parseFrame natParse [17, 16, 16, 0, 0, 0, 0, 10, 1, 2]).isDecodeErr =
        false := by
  constructor
  · decide
  · decide

/-! ## Event codes -/

def Events.StartConnection : Int := 1
def Events.FinishConnection : Int := 2
def Events.StartSession : Int := 100
def Events.CancelSession : Int := 101
def Events.FinishSession : Int := 102
def Events.TaskRequest : Int := 200
def Events.ConnectionStarted : Int := 50
def Events.ConnectionFailed : Int := 51
def Events.ConnectionFinished : Int := 52
def Events.SessionStarted : Int := 150
def Events.SessionCanceled : Int := 151
def Events.SessionFinished : Int := 152
def Events.SessionFailed : Int := 153
def Events.TTSSentenceStart : Int := 350
def Events.TTSSentenceEnd : Int := 351
def Events.TTSResponse : Int := 352

/-! ## TTSManager configuration

The three ratio parameters are floating-point numbers in the source; they
are modelled as rationals, which carries every value the admin panel can
set and keeps Math.round exact. Text is a list of characters (JS strings
are indexed by code units; substring and length act on those units). -/

structure TTSConfig where
  appid : String
  token : String
  voiceType : String
  encoding : String
  speedRatio : ℚ
  volumeRatio : ℚ
  pitchRatio : ℚ
  enabled : Bool
deriving DecidableEq, Repr

/-- The constructor defaults of TTSManager.config. -/
def defaultConfig : TTSConfig :=
  { appid := ""
    token := ""
    voiceType := "zh_female_shuangkuaisisi_moon_bigtts"
    encoding := "mp3"
    speedRatio := 1
    volumeRatio := 1
    pitchRatio := 1
    enabled := false }

/-- An options object with optional keys passed to updateConfig; none
means the key is absent from the object. -/
structure ConfigPatch where
  appid : Option String := none
  token : Option String := none
  voiceType : Option String := none
  encoding : Option String := none
  speedRatio : Option ℚ := none
  volumeRatio : Option ℚ := none
  pitchRatio : Option ℚ := none
  enabled : Option Bool := none
deriving DecidableEq

/-- updateConfig: the object spread of the options over the stored config. -/
def updateConfig (cfg : TTSConfig) (p : ConfigPatch) : TTSConfig :=
  { appid := p.appid.getD cfg.appid
    token := p.token.getD cfg.token
    voiceType := p.voiceType.getD cfg.voiceType
    encoding := p.encoding.getD cfg.encoding
    speedRatio := p.speedRatio.getD cfg.speedRatio
    volumeRatio := p.volumeRatio.getD cfg.volumeRatio
    pitchRatio := p.pitchRatio.getD cfg.pitchRatio
    enabled := p.enabled.getD cfg.enabled }

/-! ## Errors of a synthesize call -/

inductive TTSErr where
  | notEnabled
  | missingCredentials
  | errorFrame (msg : String)
  | connectionFailed (msg : String)
  | sessionFailed (msg : String)
  | timeout
  | wsError (msg : String)
  | emptyResult
deriving DecidableEq, Repr

/-- The prefix of synthesize: the enabled check, the credentials check and
the 1000-character truncation, before any connection is opened. Returns
the text that the rest of the call will transmit. -/
def synthesizeTextPrep (cfg : TTSConfig) (text : List Char) :
    Except TTSErr (List Char) :=
  if cfg.enabled = false then .error .notEnabled
  else if cfg.appid = "" ∨ cfg.token = "" then .error .missingCredentials
  else .ok (if text.length > 1000 then text.take 1000 else text)

/-! ## Frames the client sends

Outbound frames are recorded structurally: event number, session id and
the JSON payload handed to buildFrame. The wire bytes are buildFrame
applied to these, with JSON.stringify on the payload. -/

structure AudioParams where
  format : String
  sample_rate : Nat
  speech_rate : Option Int
  loudness_rate : Option Int
deriving DecidableEq, Repr

structure ReqParams where
  text : List Char
  speaker : String
  audio_params : AudioParams
deriving DecidableEq, Repr

/-- The payload object of StartSession and TaskRequest frames; nspace is
the namespace key of the JSON object. -/
structure SessionPayload where
  uid : String
  event : Int
  nspace : String
  req_params : ReqParams
deriving DecidableEq, Repr

/-- Payload of an outbound frame: the empty object {} or a session payload. -/
inductive ClientPayload where
  | emptyObj
  | session (p : SessionPayload)
deriving DecidableEq, Repr

structure SentFrame where
  event : Int
  sessionId : Option String
  payload : ClientPayload
deriving DecidableEq, Repr

/-- The StartSession payload built in the ConnectionStarted handler from
the live this.config: empty text, speaker and format from the config. -/
def startSessionPayload (cfg : TTSConfig) : SessionPayload :=
  { uid := "tavern-link-user"
    event := Events.StartSession
    nspace := "BidirectionalTTS"
    req_params :=
      { text := []
        speaker := cfg.voiceType
        audio_params :=
          { format := cfg.encoding
            sample_rate := 24000
            speech_rate := none
            loudness_rate := none } } }

/-- The TaskRequest payload built in the SessionStarted handler from the
live this.config: the (already truncated) text, the speaker, and
speech/loudness rates derived as round((ratio - 1) * 100). -/
def taskRequestPayload (cfg : TTSConfig) (text : List Char) : SessionPayload :=
  { uid := "tavern-link-user"
    event := Events.TaskRequest
    nspace := "BidirectionalTTS"
    req_params :=
      { text := text
        speaker := cfg.voiceType
        audio_params :=
          { format := cfg.encoding
            sample_rate := 24000
            speech_rate := some (round ((cfg.speedRatio - 1) * 100))
            loudness_rate := some (round ((cfg.volumeRatio - 1) * 100)) } } }

def startConnectionFrame : SentFrame :=
  ⟨Events.StartConnection, none, .emptyObj⟩

def startSessionFrame (cfg : TTSConfig) (sessionId : String) : SentFrame :=
  ⟨Events.StartSession, some sessionId, .session (startSessionPayload cfg)⟩

def taskRequestFrame (cfg : TTSConfig) (text : List Char) (sessionId : String) :
    SentFrame :=
  ⟨Events.TaskRequest, some sessionId, .session (taskRequestPayload cfg text)⟩

def finishSessionFrame (sessionId : String) : SentFrame :=
  ⟨Events.FinishSession, some sessionId, .emptyObj⟩

def finishConnectionFrame : SentFrame :=
  ⟨Events.FinishConnection, none, .emptyObj⟩

/-! ## Inbound JSON payloads as the handler reads them -/

/-- The fields of a server JSON payload that the handler dereferences:
payload.message (error text) and payload.data (base64 audio). -/
structure InPayload where
  message : Option String
  data : Option String
deriving DecidableEq, Repr

/-- payload?.message || dflt: the message when present and nonempty
(JS falsiness of the empty string), the default otherwise. -/
def payloadMessageOr : Option (Payload InPayload) → String → String
  | some (.json p), dflt =>
      match p.message with
      | some m => if m = "" then dflt else m
      | none => dflt
  | _, dflt => dflt

/-- Base64 value of one character (Buffer.from(-, base64) alphabet). -/
def b64Val (c : Char) : Option Nat :=
  if 'A' ≤ c ∧ c ≤ 'Z' then some (c.toNat - 65)
  else if 'a' ≤ c ∧ c ≤ 'z' then some (c.toNat - 71)
  else if '0' ≤ c ∧ c ≤ '9' then some (c.toNat + 4)
  else if c = '+' then some 62
  else if c = '/' then some 63
  else none

/-- Pack 6-bit groups into bytes, with trailing 2- and 3-group remainders. -/
def b64Groups : List Nat → List Nat
  | a :: b :: c :: d :: rest =>
      (a * 4 + b / 16) :: (b % 16 * 16 + c / 4) :: (c % 4 * 64 + d) ::
        b64Groups rest
  | [a, b] => [a * 4 + b / 16]
  | [a, b, c] => [a * 4 + b / 16, b % 16 * 16 + c / 4]
  | _ => []

/-- Buffer.from(s, base64): platform decoder, modelled concretely. -/
def base64Decode (s : String) : List Nat :=
  b64Groups (s.data.filterMap b64Val)

/-- The audio chunks one TTSResponse event contributes: a raw (Buffer)
payload is pushed as is; a JSON payload with a nonempty data field is
pushed base64-decoded; anything else contributes nothing. -/
def audioOf : Option (Payload InPayload) → List (List Nat)
  | some (.raw b) => [b]
  | some (.json p) =>
      match p.data with
      | some d => if d = "" then [] else [base64Decode d]
      | none => []
  | _ => []

/-! ## The per-call state of synthesize -/

instance exceptDecEq {E A : Type} [DecidableEq E] [DecidableEq A] :
    DecidableEq (Except E A) := fun x y =>
  match x, y with
  | .ok a, .ok b =>
      if h : a = b then isTrue (by rw [h])
      else isFalse (by intro hh; cases hh; exact h rfl)
  | .error a, .error b =>
      if h : a = b then isTrue (by rw [h])
      else isFalse (by intro hh; cases hh; exact h rfl)
  | .ok _, .error _ => isFalse (by intro hh; cases hh)
  | .error _, .ok _ => isFalse (by intro hh; cases hh)

/-- Observable state of one synthesize call: the two progress booleans of
the source, the accumulated audio chunks, the frames sent over the socket
(in order), whether ws.close() and clearTimeout were called, the promise
outcome (none while pending; a promise settles at most once), and the file
written on success. The cleanupAudio side effect on the audio directory is
modelled separately (cleanupAudio below). -/
structure SynthState where
  connectionStarted : Bool
  sessionStarted : Bool
  audioChunks : List (List Nat)
  sentFrames : List SentFrame
  wsClosed : Bool
  timeoutCleared : Bool
  settled : Option (Except TTSErr String)
  savedFile : Option (String × List Nat)
deriving DecidableEq, Repr

def initState : SynthState :=
  { connectionStarted := false
    sessionStarted := false
    audioChunks := []
    sentFrames := []
    wsClosed := false
    timeoutCleared := false
    settled := none
    savedFile := none }

/-- resolve / reject of the call promise: only the first settlement takes
effect, later ones are no-ops. -/
def settle (s : SynthState) (r : Except TTSErr String) : SynthState :=
  if s.settled.isNone then { s with settled := some r } else s

/-- The filename generated when saving audio: a tts_ prefix, the
millisecond clock value Date.now() in decimal, and the format extension. -/
def audioFilename (now : Nat) (encoding : String) : String :=
  "tts_" ++ Nat.repr now ++ "." ++ encoding

/-- The ws open handler: sends StartConnection (event flag, no session id,
empty JSON object). -/
def handleWsOpen (s : SynthState) : SynthState :=
  { s with sentFrames := s.sentFrames ++ [startConnectionFrame] }

/-- The ws message handler of synthesize, translated branch by branch from
the switch on frame.eventNumber. cfg is the value of this.config at the
moment the handler runs (the source dereferences this.config inside the
handler); text is the local variable captured by the closure (already
truncated); now is Date.now() at handling time. A decode-error object has
isError and eventNumber undefined, so it falls to the default branch and
only logs. -/
def handleWsMessage (cfg : TTSConfig) (text : List Char) (sessionId : String)
    (now : Nat) (s : SynthState) (fr : ParseResult InPayload) : SynthState :=
  match fr with
  | .decodeError _ => s
  | .errorFrame _ _ errorCode payload =>
      settle { s with timeoutCleared := true, wsClosed := true }
        (.error (.errorFrame ("TTS 错误: " ++ payloadMessageOr payload (toString errorCode))))
  | .frame _ eventNumber _ _ payload =>
      if eventNumber = some Events.ConnectionStarted then
        { s with connectionStarted := true
                 sentFrames := s.sentFrames ++ [startSessionFrame cfg sessionId] }
      else if eventNumber = some Events.ConnectionFailed then
        settle { s with timeoutCleared := true, wsClosed := true }
          (.error (.connectionFailed ("TTS 连接失败: " ++ payloadMessageOr payload "Unknown error")))
      else if eventNumber = some Events.SessionStarted then
        { s with sessionStarted := true
                 sentFrames := s.sentFrames ++
                   [taskRequestFrame cfg text sessionId,
                    finishSessionFrame sessionId] }
      else if eventNumber = some Events.SessionFailed then
        settle { s with timeoutCleared := true, wsClosed := true }
          (.error (.sessionFailed ("TTS 会话失败: " ++ payloadMessageOr payload "Unknown error")))
      else if eventNumber = some Events.TTSSentenceStart then s
      else if eventNumber = some Events.TTSResponse then
        { s with audioChunks := s.audioChunks ++ audioOf payload }
      else if eventNumber = some Events.TTSSentenceEnd then s
      else if eventNumber = some Events.SessionFinished then
        { s with sentFrames := s.sentFrames ++ [finishConnectionFrame] }
      else if eventNumber = some Events.ConnectionFinished then
        if s.audioChunks.isEmpty then
          settle { s with timeoutCleared := true, wsClosed := true }
            (.error .emptyResult)
        else
          let audio := s.audioChunks.flatten
          let filename := audioFilename now cfg.encoding
          settle { s with timeoutCleared := true, wsClosed := true,
                          savedFile := some (filename, audio) }
            (.ok filename)
      else s

/-- The 30-second timeout firing: ws.close() then reject(Timeout). -/
def handleTimeout (s : SynthState) : SynthState :=
  settle { s with wsClosed := true } (.error .timeout)

/-- The ws error handler: clearTimeout then reject. Note: no ws.close(). -/
def handleWsError (s : SynthState) (msg : String) : SynthState :=
  settle { s with timeoutCleared := true }
    (.error (.wsError ("TTS WebSocket 错误: " ++ msg)))

/-! ## Structural facts about settle -/

@[simp]
theorem settle_sentFrames (s : SynthState) (r : Except TTSErr String) :
    (settle s r).sentFrames = s.sentFrames := by
  unfold settle
  split <;> rfl

@[simp]
theorem settle_audioChunks (s : SynthState) (r : Except TTSErr String) :
    (settle s r).audioChunks = s.audioChunks := by
  unfold settle
  split <;> rfl

@[simp]
theorem settle_wsClosed (s : SynthState) (r : Except TTSErr String) :
    (settle s r).wsClosed = s.wsClosed := by
  unfold settle
  split <;> rfl

@[simp]
theorem settle_timeoutCleared (s : SynthState) (r : Except TTSErr String) :
    (settle s r).timeoutCleared = s.timeoutCleared := by
  unfold settle
  split <;> rfl

theorem settle_settled_of_some (s : SynthState) (r r0 : Except TTSErr String)
    (h : s.settled = some r0) : (settle s r).settled = some r0 := by
  unfold settle
  simp [h]

theorem settle_settled_of_none (s : SynthState) (r : Except TTSErr String)
    (h : s.settled = none) : (settle s r).settled = some r := by
  unfold settle
  rw [h]
  simp

/-! ## What one handler invocation does, as a function of the frame alone -/

/-- The frames one invocation of the message handler sends: a function of
the received frame and the live config, text and session id only — the
handler consults no state before sending. -/
def framesEmitted (cfg : TTSConfig) (text : List Char) (sessionId : String) :
    ParseResult InPayload → List SentFrame
  | .frame _ eventNumber _ _ _ =>
      if eventNumber = some Events.ConnectionStarted then
        [startSessionFrame cfg sessionId]
      else if eventNumber = some Events.SessionStarted then
        [taskRequestFrame cfg text sessionId, finishSessionFrame sessionId]
      else if eventNumber = some Events.SessionFinished then
        [finishConnectionFrame]
      else []
  | _ => []

/-- The audio chunks one invocation appends: a function of the frame only. -/
def audioAppended : ParseResult InPayload → List (List Nat)
  | .frame _ eventNumber _ _ payload =>
      if eventNumber = some Events.TTSResponse then audioOf payload else []
  | _ => []

set_option maxHeartbeats 3200000 in
/-- Combined branch analysis of the message handler: (1) the frames sent
are s.sentFrames extended by a function of the received frame alone;
(2) the audio accumulator is extended by a function of the frame alone;
(3) an already settled outcome is never changed; (4) if an invocation
newly settles a pending call with an error, it has called ws.close(). -/
theorem handleWsMessage_effects (cfg : TTSConfig) (text : List Char)
    (sessionId : String) (now : Nat) (s : SynthState)
    (fr : ParseResult InPayload) :
    (handleWsMessage cfg text sessionId now s fr).sentFrames =
        s.sentFrames ++ framesEmitted cfg text sessionId fr ∧
      (handleWsMessage cfg text sessionId now s fr).audioChunks =
        s.audioChunks ++ audioAppended fr ∧
      (∀ r, s.settled = some r →
        (handleWsMessage cfg text sessionId now s fr).settled = some r) ∧
      (s.settled = none → ∀ e : TTSErr,
        (handleWsMessage cfg text sessionId now s fr).settled =
          some (.error e) →
        (handleWsMessage cfg text sessionId now s fr).wsClosed = true) := by
  cases fr with
  | decodeError m =>
      refine ⟨by simp [handleWsMessage, framesEmitted],
        by simp [handleWsMessage, audioAppended], fun r h => ?_, ?_⟩
      · simpa [handleWsMessage] using h
      · intro hnone e hrej
        rw [show handleWsMessage cfg text sessionId now s (.decodeError m) = s
          from rfl, hnone] at hrej
        cases hrej
  | errorFrame hh ev code pl =>
      refine ⟨by simp [handleWsMessage, framesEmitted],
        by simp [handleWsMessage, audioAppended], fun r h => ?_, ?_⟩
      · simp only [handleWsMessage]
        exact settle_settled_of_some _ _ _ (by simpa using h)
      · intro hnone e hrej
        simp only [handleWsMessage]
        rw [settle_wsClosed]
  | frame hh ev sid seq pl =>
      refine ⟨?_, ?_, fun r h => ?_, ?_⟩
      · simp only [handleWsMessage, framesEmitted]
        split_ifs <;> simp_all [Events.ConnectionStarted, Events.ConnectionFailed, Events.SessionStarted, Events.SessionFailed, Events.TTSSentenceStart, Events.TTSSentenceEnd, Events.TTSResponse, Events.SessionFinished, Events.ConnectionFinished]
      · simp only [handleWsMessage, audioAppended]
        split_ifs <;> simp_all [Events.ConnectionStarted, Events.ConnectionFailed, Events.SessionStarted, Events.SessionFailed, Events.TTSSentenceStart, Events.TTSSentenceEnd, Events.TTSResponse, Events.SessionFinished, Events.ConnectionFinished]
      · simp only [handleWsMessage]
        split_ifs <;>
          first
            | simpa using h
            | (exact settle_settled_of_some _ _ _ (by simpa using h))
      · intro hnone e hrej
        revert hrej
        simp only [handleWsMessage]
        split_ifs <;> intro hrej <;>
          first
            | (simp; done)
            | simp [hnone] at hrej

/-- Claim C3 (amended): the message handler dispatches on the event number
alone, with no state guard. The frames it sends and the audio it appends
are functions of the received frame (and the live config, text and session
id) only, independent of the current state — in particular an
AudioResponse is accumulated and a SessionStarted answered even before the
connection or session is started. The promise settles at most once, so a
terminal outcome never changes, but events arriving after settlement still
execute their side effects instead of being ignored. -/
theorem handler_dispatches_on_event_alone (cfg : TTSConfig) (text : List Char)
    (sessionId : String) (now : Nat) (s : SynthState)
    (fr : ParseResult InPayload) :
    (handleWsMessage cfg text sessionId now s fr).sentFrames =
        s.sentFrames ++ framesEmitted cfg text sessionId fr ∧
      (handleWsMessage cfg text sessionId now s fr).audioChunks =
        s.audioChunks ++ audioAppended fr ∧
      ∀ r, s.settled = some r →
        (handleWsMessage cfg text sessionId now s fr).settled = some r :=
  ⟨(handleWsMessage_effects cfg text sessionId now s fr).1,
   (handleWsMessage_effects cfg text sessionId now s fr).2.1,
   (handleWsMessage_effects cfg text sessionId now s fr).2.2.1⟩

/-- Claim C3, counterexample to the unamended claim: in the initial state
(ConnectionPending — no ConnectionStarted received yet, both progress
flags false), an AudioResponse frame is neither ignored nor routed to a
failure: the handler appends the audio bytes — the action of the
SessionOpen state — and the call stays pending. -/
theorem handler_audio_before_connection :
    (handleWsMessage defaultConfig [] "sid" 0 initState
        (.frame ⟨1, 4, 1, 4, 0, 0⟩ (some Events.TTSResponse) none none
          (some (.raw [1, 2, 3])))).audioChunks = [[1, 2, 3]] ∧
      (handleWsMessage defaultConfig [] "sid" 0 initState
        (.frame ⟨1, 4, 1, 4, 0, 0⟩ (some Events.TTSResponse) none none
          (some (.raw [1, 2, 3])))).settled = none ∧
      initState.connectionStarted = false ∧
      initState.audioChunks = [] := by
  refine ⟨by decide, by decide, rfl, rfl⟩

/-- Claim C5 (amended): every failure path inside the message handler
closes the transport before rejecting, and the timeout closes the
transport; the transport-error handler is the exception (see the
counterexample). Formally: whenever a handler invocation settles a
pending call with an error, ws.close() has been called in that
invocation, and the timeout path always closes. -/
theorem handler_failures_close_transport :
    (∀ (cfg : TTSConfig) (text : List Char) (sessionId : String) (now : Nat)
        (s : SynthState) (fr : ParseResult InPayload) (e : TTSErr),
      s.settled = none →
      (handleWsMessage cfg text sessionId now s fr).settled =
        some (.error e) →
      (handleWsMessage cfg text sessionId now s fr).wsClosed = true) ∧
    ∀ s : SynthState, (handleTimeout s).wsClosed = true := by
  constructor
  · intro cfg text sessionId now s fr e hpending hrej
    exact (handleWsMessage_effects cfg text sessionId now s fr).2.2.2
      hpending e hrej
  · intro s
    simp [handleTimeout]

/-- Claim C5, counterexample to the unamended claim: the ws error handler
(a transport-level error, one of the failure ways the claim lists)
rejects the call without closing the transport: after it runs the call is
settled with an error but ws.close() has not been called. -/
theorem wsError_rejects_without_close :
    (handleWsError initState "boom").settled =
        some (.error (.wsError "TTS WebSocket 错误: boom")) ∧
      (handleWsError initState "boom").wsClosed = false := by
  constructor
  · decide
  · decide

/-- Claim C8 (amended): the handler reads the process-wide config live at
each event, not a snapshot taken at call start. The TaskRequest frame sent
on SessionStarted is built from the config as it is when the event is
handled: two runs of the same call whose live configs differ in voiceType
(for example because updateConfig ran after the call started but before
SessionStarted arrived) transmit different frames. -/
theorem taskRequest_reads_live_config (cfg : TTSConfig) (p : ConfigPatch)
    (text : List Char) (sessionId : String) (now : Nat) (s : SynthState)
    (hh : Header)
    (hv : (updateConfig cfg p).voiceType ≠ cfg.voiceType) :
    (handleWsMessage (updateConfig cfg p) text sessionId now s
        (.frame hh (some Events.SessionStarted) none none none)).sentFrames ≠
      (handleWsMessage cfg text sessionId now s
        (.frame hh (some Events.SessionStarted) none none none)).sentFrames := by
  have hstep : ∀ c : TTSConfig,
      (handleWsMessage c text sessionId now s
        (.frame hh (some Events.SessionStarted) none none none)).sentFrames =
      s.sentFrames ++
        [taskRequestFrame c text sessionId, finishSessionFrame sessionId] := by
    intro c
    simp only [handleWsMessage]
    rw [if_neg (by decide), if_neg (by decide), if_pos trivial]
  intro heq
  rw [hstep, hstep] at heq
  have h2 := List.append_cancel_left heq
  have h3 : taskRequestFrame (updateConfig cfg p) text sessionId =
      taskRequestFrame cfg text sessionId := by
    simpa using congrArg List.head? h2
  have h5 := congrArg SentFrame.payload h3
  dsimp only [taskRequestFrame] at h5
  injection h5 with h6
  have h7 := congrArg (fun q => q.req_params.speaker) h6
  exact hv (by simpa [taskRequestPayload] using h7)

/-- Claim C8, counterexample to the unamended claim: two runs of the same
call with identical call-start snapshots (defaultConfig), where in the
first run updateConfig changed the voice after the call started but before
the TaskRequest frame was built. The claim says both runs transmit
identical frames; the code transmits different ones. -/
theorem config_update_changes_inflight_frames :
    (handleWsMessage
        (updateConfig defaultConfig
          { voiceType := some "zh_male_chunhouzhubo_moon_bigtts" })
        [] "sid" 0 initState
        (.frame ⟨1, 4, 1, 4, 1, 0⟩ (some Events.SessionStarted) none none
          none)).sentFrames ≠
      (handleWsMessage defaultConfig [] "sid" 0 initState
        (.frame ⟨1, 4, 1, 4, 1, 0⟩ (some Events.SessionStarted) none none
          none)).sentFrames := by
  decide

/-- Claim C4 (confirmed): with synthesis enabled and credentials set, text
longer than 1000 characters is truncated to exactly its first 1000
characters and this is not an error (the call proceeds with an ok result);
text of length at most 1000 is transmitted unchanged; and the TaskRequest
payload carries exactly the prepared text. -/
theorem synthesize_truncates_at_1000 (cfg : TTSConfig) (text : List Char)
    (h1 : cfg.enabled = true) (h2 : cfg.appid ≠ "") (h3 : cfg.token ≠ "") :
    (1000 < text.length →
      synthesizeTextPrep cfg text = .ok (text.take 1000)) ∧
      (text.length ≤ 1000 → synthesizeTextPrep cfg text = .ok text) ∧
      ∀ t : List Char, (taskRequestPayload cfg t).req_params.text = t := by
  refine ⟨fun hlong => ?_, fun hshort => ?_, fun t => rfl⟩
  · unfold synthesizeTextPrep
    rw [if_neg (by simp [h1]), if_neg (by simp [h2, h3]), if_pos hlong]
  · unfold synthesizeTextPrep
    rw [if_neg (by simp [h1]), if_neg (by simp [h2, h3]),
      if_neg (by omega : ¬ 1000 < text.length)]

/-- Claim C4 witness: a 1001-character text through an enabled config is
truncated to its first 1000 characters, with an ok result. -/
theorem synthesize_truncates_at_1000_witness :
    synthesizeTextPrep
        { defaultConfig with enabled := true, appid := "a", token := "t" }
        (List.replicate 1001 'x') = .ok (List.replicate 1000 'x') := by
  have h := (synthesize_truncates_at_1000
    { defaultConfig with enabled := true, appid := "a", token := "t" }
    (List.replicate 1001 'x') rfl (by decide) (by decide)).1
    (by rw [List.length_replicate]; norm_num)
  rw [h, List.take_replicate]
  norm_num

/-! ## Claim C7: cache filenames -/

/-- One store operation of the audio cache, by its observable inputs: the
bytes written and the clock value Date.now() at write time. -/
structure StoreOp where
  bytes : List Nat
  now : Nat
deriving DecidableEq, Repr

/-- The filename a store operation generates (source: tts_ + Date.now() +
extension). It depends only on the clock value and the encoding. -/
def storeFilename (op : StoreOp) (encoding : String) : String :=
  audioFilename op.now encoding

/-- Claim C7 (amended): filename generation is not collision-free — the
name depends only on the millisecond clock and the encoding, with no
random or monotonic disambiguator, so any two store operations performed
at the same clock millisecond with the same encoding generate the same
filename, whatever bytes they write. -/
theorem storeFilename_collides_at_same_clock (op1 op2 : StoreOp)
    (encoding : String) (h : op1.now = op2.now) :
    storeFilename op1 encoding = storeFilename op2 encoding := by
  simp [storeFilename, audioFilename, h]

/-- Claim C7 witness: two concrete stores with different bytes in the same
millisecond get the same filename. -/
theorem storeFilename_collides_at_same_clock_witness :
    storeFilename ⟨[0], 42⟩ "mp3" = storeFilename ⟨[9, 9], 42⟩ "mp3" :=
  storeFilename_collides_at_same_clock ⟨[0], 42⟩ ⟨[9, 9], 42⟩ "mp3" rfl

/-- Claim C7, counterexample to the unamended claim: two distinct store
operations (different bytes) at the same clock timestamp 1700000000000
generate the same filename, contradicting collision-freedom. -/
theorem storeFilename_not_collision_free :
    storeFilename ⟨[0], 1700000000000⟩ "mp3" =
        storeFilename ⟨[1], 1700000000000⟩ "mp3" ∧
      (⟨[0], 1700000000000⟩ : StoreOp) ≠ ⟨[1], 1700000000000⟩ := by
  constructor
  · rfl
  · decide

/-! ## Audio cache retention sweep (cleanupAudio) -/

/-- A file in the audio directory: its name and its modification time
(fs.statSync(..).mtime.getTime(), milliseconds). -/
structure FileEntry where
  name : String
  time : Nat
deriving DecidableEq, Repr

/-- The order the comparator (a, b) => b.time - a.time sorts by: a comes
no later than b when a is at least as recently modified. -/
def recentFirst (a b : FileEntry) : Prop :=
  b.time ≤ a.time

instance : DecidableRel recentFirst := fun a b => Nat.decLe b.time a.time

instance : IsTotal FileEntry recentFirst :=
  ⟨fun a b => le_total b.time a.time⟩

instance : IsTrans FileEntry recentFirst :=
  ⟨fun _ _ _ hab hbc => le_trans hbc hab⟩

/-- f.startsWith("tts_"), modelled on the character sequence (the
byte-position-based core implementation does not reduce in the kernel). -/
def startsWithTTS (s : String) : Bool :=
  decide (s.data.take 4 = "tts_".data)

/-- The files the sweep considers: names starting with tts_. -/
def ttsFiles (files : List FileEntry) : List FileEntry :=
  files.filter (fun f => startsWithTTS f.name)

/-- The considered files sorted by modification time descending. With
pairwise distinct times the descending order is unique, so any correct
sort agrees with the JS comparator sort. -/
def sweepSorted (files : List FileEntry) : List FileEntry :=
  List.insertionSort recentFirst (ttsFiles files)

/-- The files cleanupAudio unlinks: files.slice(50), taken only when more
than 50 are present (slice of a shorter list is empty either way). -/
def sweepDeleted (files : List FileEntry) : List FileEntry :=
  if 50 < (sweepSorted files).length then (sweepSorted files).drop 50 else []

/-- The directory after the sweep: every entry except the deleted ones. -/
def cleanupAudio (files : List FileEntry) : List FileEntry :=
  files.filter (fun f => decide (¬ f ∈ sweepDeleted files))

/-- How many files of l are strictly more recently modified than f. -/
def moreRecentCount (l : List FileEntry) (f : FileEntry) : Nat :=
  (l.filter (fun g => f.time < g.time)).length

theorem sweepDeleted_eq (files : List FileEntry) :
    sweepDeleted files = (sweepSorted files).drop 50 := by
  unfold sweepDeleted
  split
  · rfl
  · rename_i h
    exact (List.drop_eq_nil_of_le (by omega)).symm

theorem moreRecentCount_cons (x : FileEntry) (t : List FileEntry)
    (f : FileEntry) :
    moreRecentCount (x :: t) f =
      (if f.time < x.time then 1 else 0) + moreRecentCount t f := by
  unfold moreRecentCount
  by_cases h : f.time < x.time
  · rw [if_pos h, List.filter_cons_of_pos (by simpa using h)]
    simp [Nat.add_comm]
  · rw [if_neg h, List.filter_cons_of_neg (by simpa using h)]
    simp

/-- In a descending, duplicate-free list, an element lies beyond position k
exactly when at least k elements are strictly more recent than it. -/
theorem mem_drop_iff_sorted :
    ∀ (L : List FileEntry), L.Sorted recentFirst →
      L.Pairwise (fun a b => a.time ≠ b.time) →
      ∀ (k : Nat) (f : FileEntry),
        f ∈ L.drop k ↔ f ∈ L ∧ k ≤ moreRecentCount L f
  | [], _, _, k, f => by simp [moreRecentCount]
  | x :: t, hs, hd, 0, f => by simp [moreRecentCount]
  | x :: t, hs, hd, k + 1, f => by
      have hs' := hs.of_cons
      have hd' := hd.of_cons
      have hxt : ∀ g ∈ t, g.time ≤ x.time :=
        fun g hg => List.rel_of_sorted_cons hs g hg
      have hxne : ∀ g ∈ t, x.time ≠ g.time :=
        fun g hg => (List.pairwise_cons.mp hd).1 g hg
      have hrec := mem_drop_iff_sorted t hs' hd' k f
      rw [List.drop_succ_cons]
      constructor
      · intro hmem
        obtain ⟨hft, hcnt⟩ := hrec.mp hmem
        have hflt : f.time < x.time :=
          lt_of_le_of_ne (hxt f hft) (fun h => hxne f hft h.symm)
        refine ⟨List.mem_cons_of_mem x hft, ?_⟩
        rw [moreRecentCount_cons, if_pos hflt]
        omega
      · rintro ⟨hfx, hcnt⟩
        rcases List.mem_cons.mp hfx with heq | hft
        · exfalso
          subst heq
          have hzero : moreRecentCount (f :: t) f = 0 := by
            rw [moreRecentCount_cons, if_neg (lt_irrefl f.time)]
            have hnil : t.filter (fun g => f.time < g.time) = [] := by
              rw [List.filter_eq_nil_iff]
              intro g hg
              simpa using not_lt.mpr (hxt g hg)
            unfold moreRecentCount
            rw [hnil]
            rfl
          omega
        · have hflt : f.time < x.time :=
            lt_of_le_of_ne (hxt f hft) (fun h => hxne f hft h.symm)
          rw [moreRecentCount_cons, if_pos hflt] at hcnt
          exact hrec.mpr ⟨hft, by omega⟩

/-- Claim C6 (amended): for a directory whose tts_-prefixed files have
pairwise distinct modification times, the sweep keeps exactly the files
that either do not carry the tts_ prefix (the sweep never considers them)
or are among the 50 most recently modified tts_-prefixed files: a file
survives iff it is in the directory and, when tts_-prefixed, fewer than 50
tts_ files are more recent. With 55 tts_ files of distinct times, exactly
the 50 most recently modified tts_ files remain. -/
theorem cleanupAudio_keeps_50_most_recent_tts (files : List FileEntry)
    (hd : (ttsFiles files).Pairwise (fun a b => a.time ≠ b.time))
    (f : FileEntry) :
    f ∈ cleanupAudio files ↔
      f ∈ files ∧ (startsWithTTS f.name = true →
        moreRecentCount (ttsFiles files) f < 50) := by
  have hsorted := List.sorted_insertionSort recentFirst (ttsFiles files)
  have hperm := List.perm_insertionSort recentFirst (ttsFiles files)
  have hdS : (sweepSorted files).Pairwise (fun a b => a.time ≠ b.time) :=
    (hperm.pairwise_iff (fun h => Ne.symm h)).mpr hd
  have hkey := mem_drop_iff_sorted (sweepSorted files) hsorted hdS 50 f
  have hcnt : moreRecentCount (sweepSorted files) f =
      moreRecentCount (ttsFiles files) f :=
    (hperm.filter _).length_eq
  have hmemS : f ∈ sweepSorted files ↔ f ∈ ttsFiles files := hperm.mem_iff
  have hdel : f ∈ sweepDeleted files ↔
      f ∈ ttsFiles files ∧ 50 ≤ moreRecentCount (ttsFiles files) f := by
    rw [sweepDeleted_eq, hkey, hmemS, hcnt]
  unfold cleanupAudio
  rw [List.mem_filter]
  simp only [decide_eq_true_eq]
  rw [hdel]
  constructor
  · rintro ⟨hf, hnd⟩
    refine ⟨hf, fun hstart => ?_⟩
    by_contra hge
    exact hnd ⟨List.mem_filter.mpr ⟨hf, hstart⟩, by omega⟩
  · rintro ⟨hf, himp⟩
    refine ⟨hf, fun hcontra => ?_⟩
    obtain ⟨hmem, hge⟩ := hcontra
    have hstart := (List.mem_filter.mp hmem).2
    have := himp hstart
    omega

/-- Claim C6 witness: a directory of 55 tts_ files with distinct times;
the file with time 54 (more recent than 54 others? no — 0 others more
recent) survives, checked through the theorem. -/
theorem cleanupAudio_keeps_50_most_recent_tts_witness :
    (⟨"tts_54.mp3", 54⟩ : FileEntry) ∈
      cleanupAudio ((List.range 55).map
        (fun i => ⟨"tts_" ++ Nat.repr i ++ ".mp3", i⟩)) :=
  (cleanupAudio_keeps_50_most_recent_tts
    ((List.range 55).map (fun i => ⟨"tts_" ++ Nat.repr i ++ ".mp3", i⟩))
    (by decide) ⟨"tts_54.mp3", 54⟩).mpr ⟨by decide, fun _ => by decide⟩

/-- A 55-file directory whose names do not carry the tts_ prefix. -/
def plainFiles55 : List FileEntry :=
  (List.range 55).map (fun i => ⟨"clip" ++ Nat.repr i, i⟩)

/-- Claim C6, counterexample to the unamended claim: 55 files with
pairwise distinct modification times, none carrying the tts_ prefix. The
oldest file has 54 more recent files, so it is outside the 50 most
recently modified and the claim says the sweep deletes it; the sweep
considers only tts_ files and leaves it (and everything else) in place. -/
theorem cleanupAudio_ignores_untracked_files :
    plainFiles55.length = 55 ∧
      plainFiles55.Pairwise (fun a b => a.time ≠ b.time) ∧
      (⟨"clip0", 0⟩ : FileEntry) ∈ cleanupAudio plainFiles55 ∧
      50 ≤ moreRecentCount plainFiles55 ⟨"clip0", 0⟩ := by
  refine ⟨by decide, by decide, by decide, by decide⟩

/-- Claim C10 (confirmed): the sweep only ever deletes files whose name
starts with tts_; every file without that prefix survives every sweep,
whatever its modification time and however many files are present. -/
theorem sweep_only_touches_tts_files (files : List FileEntry) :
    (∀ f ∈ sweepDeleted files, startsWithTTS f.name = true) ∧
      ∀ f ∈ files, startsWithTTS f.name = false →
        f ∈ cleanupAudio files := by
  have hperm := List.perm_insertionSort recentFirst (ttsFiles files)
  constructor
  · intro f hf
    rw [sweepDeleted_eq] at hf
    have hfs : f ∈ sweepSorted files := List.drop_subset _ _ hf
    have hft : f ∈ ttsFiles files := hperm.mem_iff.mp hfs
    exact (List.mem_filter.mp hft).2
  · intro f hf hnot
    unfold cleanupAudio
    rw [List.mem_filter]
    refine ⟨hf, ?_⟩
    simp only [decide_eq_true_eq]
    intro hcontra
    rw [sweepDeleted_eq] at hcontra
    have hfs : f ∈ sweepSorted files := List.drop_subset _ _ hcontra
    have hft : f ∈ ttsFiles files := hperm.mem_iff.mp hfs
    have hstart := (List.mem_filter.mp hft).2
    rw [hnot] at hstart
    cases hstart

/-- A small mixed directory for the C10 witness. -/
def mixedFiles : List FileEntry :=
  [⟨"tts_1.mp3", 10⟩, ⟨"keep.txt", 1⟩, ⟨"tts_2.mp3", 5⟩]

/-- Claim C10 witness: the non-tts_ file of a mixed directory survives the
sweep, via the theorem. -/
theorem sweep_only_touches_tts_files_witness :
    (⟨"keep.txt", 1⟩ : FileEntry) ∈ cleanupAudio mixedFiles :=
  (sweep_only_touches_tts_files mixedFiles).2 ⟨"keep.txt", 1⟩ (by decide)
    (by decide)

/-- Claim C3 witness: concrete instance of the dispatch theorem — on an
already settled call, a TTSResponse still appends its audio chunk while
the settled outcome is unchanged. -/
theorem handler_dispatches_on_event_alone_witness :
    (handleWsMessage defaultConfig [] "sid" 0
        { initState with settled := some (.error .timeout) }
        (.frame ⟨1, 4, 1, 4, 0, 0⟩ (some Events.TTSResponse) none none
          (some (.raw [7])))).audioChunks = [[7]] ∧
      (handleWsMessage defaultConfig [] "sid" 0
        { initState with settled := some (.error .timeout) }
        (.frame ⟨1, 4, 1, 4, 0, 0⟩ (some Events.TTSResponse) none none
          (some (.raw [7])))).settled = some (.error .timeout) := by
  have h := handler_dispatches_on_event_alone defaultConfig [] "sid" 0
    { initState with settled := some (.error .timeout) }
    (.frame ⟨1, 4, 1, 4, 0, 0⟩ (some Events.TTSResponse) none none
      (some (.raw [7])))
  refine ⟨?_, h.2.2 (.error .timeout) rfl⟩
  rw [h.2.1]
  decide

/-- Claim C5 witness: a SessionFailed frame on a pending call rejects it,
and the theorem yields that the transport was closed. -/
theorem handler_failures_close_transport_witness :
    (handleWsMessage defaultConfig [] "sid" 0 initState
        (.frame ⟨1, 4, 1, 4, 1, 0⟩ (some Events.SessionFailed) none none
          none)).wsClosed = true :=
  handler_failures_close_transport.1 defaultConfig [] "sid" 0 initState
    (.frame ⟨1, 4, 1, 4, 1, 0⟩ (some Events.SessionFailed) none none none)
    (.sessionFailed "TTS 会话失败: Unknown error") rfl (by decide)

/-- Claim C8 witness: concrete instance of the live-config theorem with a
voiceType update applied mid-call. -/
theorem taskRequest_reads_live_config_witness :
    (handleWsMessage (updateConfig defaultConfig { voiceType := some "v2" })
        [] "sid" 0 initState
        (.frame ⟨1, 4, 1, 4, 1, 0⟩ (some Events.SessionStarted) none none
          none)).sentFrames ≠
      (handleWsMessage defaultConfig [] "sid" 0 initState
        (.frame ⟨1, 4, 1, 4, 1, 0⟩ (some Events.SessionStarted) none none
          none)).sentFrames :=
  taskRequest_reads_live_config defaultConfig { voiceType := some "v2" }
    [] "sid" 0 initState ⟨1, 4, 1, 4, 1, 0⟩ (by decide)

end TTS
